import Mathlib

/-!
Verification of the sub-agent spawn-and-announce orchestrator of the
`chowder` repository (TypeScript sources `src/agents/tools/sessions-spawn-tool.ts`
and `src/agents/subagent-announce.ts`), as a shallow embedding in Lean 4.

Gateway RPC calls are modelled by an oracle record: each call site records a
`GCall` in an execution trace and consumes the oracle's response
(`Except String α` mirrors a JS promise that either resolves or rejects).
JS strings are Lean `String`s; JS numbers are `Nat`/`Int`/`Rat` as appropriate.
Modules of the repository that are not present under `src/` (the subagent
registry, the session-key helpers, the agent-step helper and the
announce-target resolver) are modelled from the specification; each such
definition carries a doc comment starting with `Modelled from the spec:`.
-/

/-! ### String helpers (JS `String.prototype.includes`) -/

/-- Chars-level check that the first list occurs at the head of the second. -/
def strStartsAux : List Char → List Char → Bool
  | [], _ => true
  | _ :: _, [] => false
  | p :: ps, c :: cs => p == c && strStartsAux ps cs

/-- Chars-level check that `pat` occurs somewhere inside the second list. -/
def strIncludesAux (pat : List Char) : List Char → Bool
  | [] => strStartsAux pat []
  | c :: cs => strStartsAux pat (c :: cs) || strIncludesAux pat cs

/-- JS `s.includes(pat)`: substring containment. -/
def strIncludes (s pat : String) : Bool :=
  strIncludesAux pat.toList s.toList

def isWsChar (c : Char) : Bool :=
  c == ' ' || c == '\t' || c == '\n' || c == '\r'

/-- JS `s.trim()`: strip leading and trailing whitespace. -/
def jsTrim (s : String) : String :=
  String.mk (((s.toList.dropWhile isWsChar).reverse.dropWhile isWsChar).reverse)

def splitOnColonAux : List Char → List Char → List String
  | [], acc => [String.mk acc.reverse]
  | c :: cs, acc =>
    if c == ':' then String.mk acc.reverse :: splitOnColonAux cs []
    else splitOnColonAux cs (c :: acc)

/-- `s.split(":")`: the colon-separated fields of a session key. -/
def splitOnColon (s : String) : List String :=
  splitOnColonAux s.toList []

/-! ### Session Key Domain

The session-key module (`src/routing/session-key.ts`) is not under `src/`;
only its callers are. It is modelled from the spec (§4.1): keys encode an
owning `agentId`, a kind (`main` vs `subagent`) and, for sub-agents, a
`runToken`; malformed keys are "not parseable" rather than an error. -/

inductive SessionKind where
  | mainKind
  | subKind
deriving DecidableEq, Repr

structure ParsedSessionKey where
  agentId : String
  kind : SessionKind
  runToken : Option String
deriving DecidableEq, Repr

/-- Modelled from the spec: `parseAgentSessionKey` of `src/routing/session-key.ts`
(not under `src/`). Parses `agent:<id>:main` and `agent:<id>:subagent:<token>`
keys; anything else is not parseable. -/
def parseAgentSessionKey (key : String) : Option ParsedSessionKey :=
  match splitOnColon key with
  | ["agent", a, "main"] => some ⟨a, SessionKind.mainKind, none⟩
  | ["agent", a, "subagent", t] => some ⟨a, SessionKind.subKind, some t⟩
  | _ => none

/-- Modelled from the spec: `isSubagentSessionKey` of `src/routing/session-key.ts`
(not under `src/`). A key is a sub-agent key when it parses with kind `subagent`. -/
def isSubagentSessionKey (key : String) : Bool :=
  match parseAgentSessionKey key with
  | some p => p.kind == SessionKind.subKind
  | none => false

/-- Modelled from the spec: `normalizeAgentId` of `src/routing/session-key.ts`
(not under `src/`). Normalizes an optional agent id, defaulting to `main`. -/
def normalizeAgentId (id : Option String) : String :=
  match id with
  | some s => if jsTrim s = "" then "main" else jsTrim s
  | none => "main"

/-- Modelled from the spec: `resolveInternalSessionKey` of
`src/agents/tools/sessions-helpers.ts` (not under `src/`). Alias resolution
for the main session: the alias maps to the configured main key. -/
def resolveInternalSessionKey (key aliasKey mainKey : String) : String :=
  if key = aliasKey then mainKey else key

/-- Modelled from the spec: `resolveDisplaySessionKey` of
`src/agents/tools/sessions-helpers.ts` (not under `src/`). The configured main
key is shown as its alias. -/
def resolveDisplaySessionKey (key aliasKey mainKey : String) : String :=
  if key = mainKey then aliasKey else key

/-! ### Subagent Registry

The registry module (`src/agents/subagent-registry.ts`) is not under `src/`;
only its callers are. Modelled from the spec (§4.3): a process-wide record of
in-flight runs plus a single-acquisition announce claim per `runId`. -/

inductive Cleanup where
  | del
  | keep
deriving DecidableEq, Repr

structure SubagentRun where
  runId : String
  childSessionKey : String
  requesterSessionKey : String
  requesterProvider : Option String
  requesterDisplayKey : String
  task : String
  cleanup : Cleanup
deriving DecidableEq, Repr

structure SubagentRegistry where
  runs : List SubagentRun
  claimed : List String
deriving DecidableEq, Repr

/-- Modelled from the spec: `registerSubagentRun` of
`src/agents/subagent-registry.ts` (not under `src/`). Records run metadata
keyed by `runId` (most recent record takes precedence). -/
def registerSubagentRun (reg : SubagentRegistry) (run : SubagentRun) : SubagentRegistry :=
  { reg with runs := run :: reg.runs }

/-- Modelled from the spec: `beginSubagentAnnounce` of
`src/agents/subagent-registry.ts` (not under `src/`). Atomic compare-and-set
on the announce claim: returns `true` exactly once per `runId`. -/
def beginSubagentAnnounce (reg : SubagentRegistry) (runId : String) :
    Bool × SubagentRegistry :=
  if runId ∈ reg.claimed then (false, reg)
  else (true, { reg with claimed := runId :: reg.claimed })

/-- The results of `n` successive invocations of `beginSubagentAnnounce` for the
same `runId` (the event-loop serializes the competing call paths, so any
interleaving is some sequential order of the invocations). -/
def claimSeq (reg : SubagentRegistry) (runId : String) : ℕ → List Bool × SubagentRegistry
  | 0 => ([], reg)
  | n + 1 =>
    let step := beginSubagentAnnounce reg runId
    let rest := claimSeq step.2 runId n
    (step.1 :: rest.1, rest.2)

/-! ### Gateway call model

Every gateway RPC issued by the orchestrator or the announce flow is recorded
as a `GCall` in an execution trace; the response comes from an oracle. -/

inductive GCall where
  | patchSpawnedBy (key spawnedBy : String)
  | patchModel (key model : String)
  | agentStart (message sessionKey idem : String) (deliver : Bool) (lane extraSystemPrompt : String)
  | agentWait (runId : String) (timeoutMs : ℕ)
  | chatAbort (sessionKey runId : String)
  | chatHistory (sessionKey : String)
  | resolveTarget (sessionKey displayKey : String)
  | nestedStep (sessionKey message extraSystemPrompt : String) (timeoutMs : ℕ) (lane : String)
  | sendMsg (dest provider message : String) (accountId : Option String)
  | sessionsDelete (key : String) (deleteTranscript : Bool)
deriving DecidableEq, Repr

def isAgentStart : GCall → Bool
  | GCall.agentStart _ _ _ _ _ _ => true
  | _ => false

def isAgentWait : GCall → Bool
  | GCall.agentWait _ _ => true
  | _ => false

def isPatchModel : GCall → Bool
  | GCall.patchModel _ _ => true
  | _ => false

def isChatAbort : GCall → Bool
  | GCall.chatAbort _ _ => true
  | _ => false

def isSend : GCall → Bool
  | GCall.sendMsg _ _ _ _ => true
  | _ => false

/-- Response shape of the gateway `agent.wait` method. -/
structure WaitResp where
  status : Option String
  error : Option String
  startedAt : Option ℤ
  endedAt : Option ℤ
deriving DecidableEq, Repr

/-- Oracle giving the gateway's response to each call the spawn tool makes.
The `sessions.patch {spawnedBy}` and `chat.abort` responses are not consulted:
the source discards them inside `try {} catch {}` blocks. `history` is the
text that `readLatestAssistantReply` extracts from `chat.history`
(`src/agents/tools/agent-step.ts` is not under `src/`; modelled from the spec:
it reads the transcript and extracts the latest assistant reply text). -/
structure SpawnOracle where
  patchModel : Except String Unit
  agentStart : Except String (Option String)
  agentWait : Except String WaitResp
  history : String
deriving Repr

/-! ### Spawn Orchestrator (`createSessionsSpawnTool.execute`) -/

inductive SpawnStatus where
  | forbidden
  | error
  | accepted
  | timeout
  | ok
deriving DecidableEq, Repr

structure SpawnResult where
  status : SpawnStatus
  error : Option String := none
  childSessionKey : Option String := none
  runId : Option String := none
  reply : Option String := none
  modelApplied : Option Bool := none
  warning : Option String := none
deriving DecidableEq, Repr

structure SpawnOutcome where
  result : SpawnResult
  trace : List GCall
  registry : SubagentRegistry
  announceLaunched : Bool
deriving DecidableEq, Repr

/-- The `timeoutSeconds` tool argument as a JS value: absent (or not a number),
a non-finite number (`NaN`, `±Infinity`), or a finite number. -/
inductive JSTimeout where
  | absent
  | nonfinite
  | finite (q : ℚ)
deriving DecidableEq, Repr

/-- Lines 59-63 of `sessions-spawn-tool.ts`:
`typeof x === "number" && Number.isFinite(x) ? Math.max(0, Math.floor(x)) : 0`. -/
def coerceTimeoutSeconds : JSTimeout → ℕ
  | JSTimeout.finite q => (max 0 ⌊q⌋).toNat
  | _ => 0

/-- Lines 123-125: `messageText.includes("invalid model") || messageText.includes("model not allowed")`. -/
def recoverableModelErr (msg : String) : Bool :=
  strIncludes msg "invalid model" || strIncludes msg "model not allowed"

structure SpawnArgs where
  task : String
  label : String
  model : Option String
  cleanup : Cleanup
  timeoutSeconds : JSTimeout
deriving DecidableEq, Repr

structure SpawnOpts where
  agentSessionKey : Option String
  agentProvider : Option String
  sandboxed : Bool
deriving DecidableEq, Repr

/-- Environment data the tool draws from config and `crypto.randomUUID()`:
the configured main key and its alias, the child session uuid and the
idempotency key generated for the `agent` start call. -/
structure SpawnEnv where
  mainKey : String
  aliasKey : String
  childUuid : String
  childIdem : String
deriving DecidableEq, Repr

def spawnForbidden (opts : SpawnOpts) : Bool :=
  match opts.agentSessionKey with
  | some k => isSubagentSessionKey k
  | none => false

def spawnRequesterInternal (opts : SpawnOpts) (env : SpawnEnv) : String :=
  match opts.agentSessionKey with
  | some k => resolveInternalSessionKey k env.aliasKey env.mainKey
  | none => env.aliasKey

def spawnRequesterDisplay (opts : SpawnOpts) (env : SpawnEnv) : String :=
  resolveDisplaySessionKey (spawnRequesterInternal opts env) env.aliasKey env.mainKey

/-- Line 96: `agent:${requesterAgentId}:subagent:${crypto.randomUUID()}`. -/
def spawnChildKey (opts : SpawnOpts) (env : SpawnEnv) : String :=
  "agent:" ++
    normalizeAgentId ((parseAgentSessionKey (spawnRequesterInternal opts env)).map
      ParsedSessionKey.agentId) ++
    ":subagent:" ++ env.childUuid

/-- Lines 158-160: fall back to the generated idempotency key unless the
gateway returned a non-empty `runId` string. -/
def resolvedRunId (idem : String) (ridOpt : Option String) : String :=
  match ridOpt with
  | some r => if r = "" then idem else r
  | none => idem

/-- `buildSubagentSystemPrompt` (`subagent-announce.ts` lines 484-504): the
extra system prompt given to the child session's primary task step. -/
def buildSubagentSystemPrompt (requesterSessionKey requesterProvider : Option String)
    (childSessionKey : String) (label : Option String) : String :=
  let lines :=
    ["Sub-agent context:"] ++
    (match label with
     | some l => if l = "" then [] else ["Label: " ++ l]
     | none => []) ++
    (match requesterSessionKey with
     | some rk => if rk = "" then [] else ["Requester session: " ++ rk ++ "."]
     | none => []) ++
    (match requesterProvider with
     | some rp => if rp = "" then [] else ["Requester provider: " ++ rp ++ "."]
     | none => []) ++
    ["Your session: " ++ childSessionKey ++ ".",
     "Run the task. Provide a clear final answer (plain text).",
     "After you finish, you may be asked to produce an \"announce\" message to post back to the requester chat."]
  String.intercalate "\n" lines

/-- Lines 136-141: the system prompt the spawn passes to the `agent` start call. -/
def spawnSystemPrompt (args : SpawnArgs) (opts : SpawnOpts) (env : SpawnEnv) : String :=
  buildSubagentSystemPrompt opts.agentSessionKey opts.agentProvider (spawnChildKey opts env)
    (if args.label = "" then none else some args.label)

/-- Lines 196-291 of `sessions-spawn-tool.ts`: the wait / abort / announce
phase, entered when `timeoutSeconds > 0` after a successful start. -/
def spawnWaitStage (args : SpawnArgs) (o : SpawnOracle) (reg : SubagentRegistry)
    (ck rid : String) (tr : List GCall) (applied : Bool) (warning : Option String)
    (tms : ℕ) : SpawnOutcome :=
  let tr := tr ++ [GCall.agentWait rid tms]
  match o.agentWait with
  | Except.error msg =>
    { result := { status := if strIncludes msg "gateway timeout" then SpawnStatus.timeout
                            else SpawnStatus.error,
                  error := some msg, childSessionKey := some ck, runId := some rid },
      trace := tr, registry := reg, announceLaunched := false }
  | Except.ok w =>
    if w.status = some "timeout" then
      let tr := tr ++ [GCall.chatAbort ck rid]
      { result := { status := SpawnStatus.timeout, error := w.error,
                    childSessionKey := some ck, runId := some rid,
                    modelApplied := args.model.map (fun _ => applied), warning := warning },
        trace := tr, registry := reg, announceLaunched := false }
    else if w.status = some "error" then
      { result := { status := SpawnStatus.error, error := some (w.error.getD "agent error"),
                    childSessionKey := some ck, runId := some rid,
                    modelApplied := args.model.map (fun _ => applied), warning := warning },
        trace := tr, registry := reg, announceLaunched := false }
    else
      let tr := tr ++ [GCall.chatHistory ck]
      let claim := beginSubagentAnnounce reg rid
      { result := { status := SpawnStatus.ok, childSessionKey := some ck, runId := some rid,
                    reply := some o.history,
                    modelApplied := args.model.map (fun _ => applied), warning := warning },
        trace := tr, registry := claim.2, announceLaunched := claim.1 }

/-- Lines 143-194 of `sessions-spawn-tool.ts`: start the run, register it, then
either return `accepted` (fire-and-forget) or enter the wait stage. -/
def spawnStartStage (args : SpawnArgs) (o : SpawnOracle) (reg : SubagentRegistry)
    (ck idem : String) (tr : List GCall) (applied : Bool) (warning : Option String)
    (rik : String) (prov : Option String) (rdk : String) (esp : String) : SpawnOutcome :=
  let tr := tr ++ [GCall.agentStart args.task ck idem false "subagent" esp]
  match o.agentStart with
  | Except.error msg =>
    { result := { status := SpawnStatus.error, error := some msg,
                  childSessionKey := some ck, runId := some idem },
      trace := tr, registry := reg, announceLaunched := false }
  | Except.ok ridOpt =>
    let rid := resolvedRunId idem ridOpt
    let reg := registerSubagentRun reg
      { runId := rid, childSessionKey := ck, requesterSessionKey := rik,
        requesterProvider := prov, requesterDisplayKey := rdk,
        task := args.task, cleanup := args.cleanup }
    let ts := coerceTimeoutSeconds args.timeoutSeconds
    if ts = 0 then
      { result := { status := SpawnStatus.accepted, childSessionKey := some ck,
                    runId := some rid,
                    modelApplied := args.model.map (fun _ => applied), warning := warning },
        trace := tr, registry := reg, announceLaunched := false }
    else
      spawnWaitStage args o reg ck rid tr applied warning (ts * 1000)

/-- Lines 80-194 of `sessions-spawn-tool.ts`, after the forbidden check:
resolve keys, best-effort ownership patch when sandboxed, model patch with
recoverable/fatal classification, then the start stage. -/
def executeSpawnBody (args : SpawnArgs) (opts : SpawnOpts) (env : SpawnEnv)
    (o : SpawnOracle) (reg : SubagentRegistry) : SpawnOutcome :=
  let rik := spawnRequesterInternal opts env
  let rdk := spawnRequesterDisplay opts env
  let ck := spawnChildKey opts env
  let tr0 : List GCall := if opts.sandboxed then [GCall.patchSpawnedBy ck rik] else []
  match args.model with
  | none =>
    spawnStartStage args o reg ck env.childIdem tr0 false none rik opts.agentProvider rdk
      (spawnSystemPrompt args opts env)
  | some m =>
    let tr1 := tr0 ++ [GCall.patchModel ck m]
    match o.patchModel with
    | Except.ok _ =>
      spawnStartStage args o reg ck env.childIdem tr1 true none rik opts.agentProvider rdk
        (spawnSystemPrompt args opts env)
    | Except.error msg =>
      if recoverableModelErr msg then
        spawnStartStage args o reg ck env.childIdem tr1 false (some msg) rik
          opts.agentProvider rdk (spawnSystemPrompt args opts env)
      else
        { result := { status := SpawnStatus.error, error := some msg,
                      childSessionKey := some ck },
          trace := tr1, registry := reg, announceLaunched := false }

/-- The full `execute` of the `sessions_spawn` tool
(`createSessionsSpawnTool.execute`, lines 50-292). -/
def executeSpawn (args : SpawnArgs) (opts : SpawnOpts) (env : SpawnEnv)
    (o : SpawnOracle) (reg : SubagentRegistry) : SpawnOutcome :=
  if spawnForbidden opts then
    { result := { status := SpawnStatus.forbidden,
                  error := some "sessions_spawn is not allowed from sub-agent sessions" },
      trace := [], registry := reg, announceLaunched := false }
  else
    executeSpawnBody args opts env o reg

/-! ### Usage Resolver (`subagent-announce.ts` lines 361-482)

The external session store is modelled as a function from load index to the
(possibly absent) usage entry for the child session key: index 0 is the
initial read, indices 1-4 are the re-reads after each 200ms sleep. -/

structure UsageEntry where
  inputTokens : Option ℕ
  outputTokens : Option ℕ
  totalTokens : Option ℕ
  model : Option String
  modelProvider : Option String
  sessionId : Option String
deriving DecidableEq, Repr

/-- `hasTokens` of `waitForSessionUsage`: any of the three token counts is a number. -/
def hasTokens (e : UsageEntry) : Bool :=
  e.totalTokens.isSome || e.inputTokens.isSome || e.outputTokens.isSome

def entryHasTokens : Option UsageEntry → Bool
  | some e => hasTokens e
  | none => false

/-- The retry loop of `waitForSessionUsage` (lines 418-422): each iteration
sleeps 200ms then re-reads the store; stop early once token data appears.
Returns the final entry and the list of sleep delays performed. -/
def usageGo (store : ℕ → Option UsageEntry) :
    ℕ → ℕ → Option UsageEntry → Option UsageEntry × List ℕ
  | 0, _, cur => (cur, [])
  | fuel + 1, i, _cur =>
    let e := store i
    if entryHasTokens e then (e, [200])
    else
      let rest := usageGo store fuel (i + 1) e
      (rest.1, 200 :: rest.2)

/-- `waitForSessionUsage` (lines 406-424): if the entry is absent at first read,
return immediately; if it lacks token data, poll up to 4 more times with a
fixed 200ms delay before giving up. -/
def waitForSessionUsage (store : ℕ → Option UsageEntry) :
    Option UsageEntry × List ℕ :=
  match store 0 with
  | none => (none, [])
  | some e => if hasTokens e then (some e, []) else usageGo store 4 1 (some e)

structure ModelCost where
  inputRate : ℚ
  outputRate : ℚ
  cacheReadRate : ℚ
  cacheWriteRate : ℚ
deriving DecidableEq, Repr

/-- `resolveModelCost` (lines 386-404): per-million rates looked up from the
config by trimmed provider and model id; absent when either is missing/blank
or the config has no matching entry. -/
def resolveModelCost (provider model : Option String)
    (cfg : String → String → Option ModelCost) : Option ModelCost :=
  match provider, model with
  | some p, some m =>
    if jsTrim p = "" then none
    else if jsTrim m = "" then none
    else cfg (jsTrim p) (jsTrim m)
  | _, _ => none

/-- Left-pad a digit string with zeros up to width `d`. -/
def padZeros (s : String) (d : ℕ) : String :=
  String.mk (List.replicate (d - s.toList.length) '0') ++ s

/-- JS `x.toFixed(d)` for a non-negative rational, rounding half away from
zero at `d` decimal digits. -/
def ratToFixed (q : ℚ) (d : ℕ) : String :=
  let p : ℤ := (10 : ℤ) ^ d
  let n : ℤ := ⌊q * (p : ℚ) + 1 / 2⌋
  toString (n / p) ++ "." ++ padZeros (toString ((n % p).toNat)) d

/-- `formatTokenCount` (lines 372-377): `0` for missing/zero, `X.Ym` at million
scale, `X.Yk` at thousand scale, the plain number otherwise. -/
def formatTokenCount (v : Option ℕ) : String :=
  match v with
  | none => "0"
  | some v =>
    if v = 0 then "0"
    else if 1000000 ≤ v then ratToFixed ((v : ℚ) / 1000000) 1 ++ "m"
    else if 1000 ≤ v then ratToFixed ((v : ℚ) / 1000) 1 ++ "k"
    else toString v

/-- `formatDurationShort` (lines 361-370). -/
def formatDurationShort (valueMs : Option ℤ) : Option String :=
  match valueMs with
  | none => none
  | some ms =>
    if ms ≤ 0 then none
    else
      let totalSeconds := ((ms + 500) / 1000).toNat
      let hours := totalSeconds / 3600
      let minutes := totalSeconds % 3600 / 60
      let seconds := totalSeconds % 60
      if 0 < hours then some (toString hours ++ "h" ++ toString minutes ++ "m")
      else if 0 < minutes then some (toString minutes ++ "m" ++ toString seconds ++ "s")
      else some (toString seconds ++ "s")

/-- `formatUsd` (lines 379-384). -/
def formatUsd (value : Option ℚ) : Option String :=
  match value with
  | none => none
  | some v =>
    if 1 ≤ v then some ("$" ++ ratToFixed v 2)
    else if 1 / 100 ≤ v then some ("$" ++ ratToFixed v 2)
    else some ("$" ++ ratToFixed v 4)

/-- JS `parts.join(" • ")`. -/
def joinParts : List String → String
  | [] => ""
  | [p] => p
  | p :: q :: rest => p ++ " • " ++ joinParts (q :: rest)

/-- `path.dirname` restricted to slash-separated paths (Node `path.join` of the
store directory and the transcript file name). -/
def dirnameOf (p : String) : String :=
  let segs := p.splitOn "/"
  if segs.length ≤ 1 then "." else String.intercalate "/" segs.dropLast

/-- `buildSubagentStatsLine` (lines 426-482): resolve the usage entry (with
polling), derive token totals, runtime, estimated cost, session id and
transcript path, and format the single `Stats:` summary line. The Lean
embedding is total: every missing field degrades to `n/a` or is omitted. -/
def buildSubagentStatsLine (store : ℕ → Option UsageEntry) (storePath sessionKey : String)
    (cfg : String → String → Option ModelCost) (startedAt endedAt : Option ℤ) : String :=
  let entry := (waitForSessionUsage store).1
  let sessionId := entry.bind UsageEntry.sessionId
  let transcriptPath :=
    match sessionId with
    | some sid => if storePath = "" then none else some (dirnameOf storePath ++ "/" ++ sid ++ ".jsonl")
    | none => none
  let input := entry.bind UsageEntry.inputTokens
  let output := entry.bind UsageEntry.outputTokens
  let total :=
    match entry.bind UsageEntry.totalTokens with
    | some t => some t
    | none =>
      match input, output with
      | some i, some o2 => some (i + o2)
      | _, _ => none
  let runtimeMs :=
    match startedAt, endedAt with
    | some s, some e => some (max 0 (e - s))
    | _, _ => none
  let costConfig := resolveModelCost (entry.bind UsageEntry.modelProvider)
    (entry.bind UsageEntry.model) cfg
  let cost :=
    match costConfig, input, output with
    | some cc, some i, some o2 =>
      some (((i : ℚ) * cc.inputRate + (o2 : ℚ) * cc.outputRate) / 1000000)
    | _, _, _ => none
  let runtimePart := "runtime " ++ ((formatDurationShort runtimeMs).getD "n/a")
  let tokensPart :=
    match total with
    | some t =>
      "tokens " ++ formatTokenCount (some t) ++ " (in " ++
        (match input with | some i => formatTokenCount (some i) | none => "n/a") ++
        " / out " ++
        (match output with | some o2 => formatTokenCount (some o2) | none => "n/a") ++ ")"
    | none => "tokens n/a"
  let estParts := match formatUsd cost with
    | some c => ["est " ++ c]
    | none => []
  let sidParts := match sessionId with
    | some sid => ["sessionId " ++ sid]
    | none => []
  let tpParts := match transcriptPath with
    | some tp => ["transcript " ++ tp]
    | none => []
  let parts := [runtimePart, tokensPart] ++ estParts ++ ["sessionKey " ++ sessionKey] ++
    sidParts ++ tpParts
  "Stats: " ++ joinParts parts

/-! ### Announce Flow (`runSubagentAnnounceFlow`, `subagent-announce.ts` lines 532-634) -/

structure AnnounceTarget where
  provider : String
  dest : String
  accountId : Option String
deriving DecidableEq, Repr

structure AnnounceParams where
  childSessionKey : String
  childRunId : String
  requesterSessionKey : String
  requesterProvider : Option String
  requesterDisplayKey : String
  task : String
  timeoutMs : ℕ
  cleanup : Cleanup
  roundOneReply : Option String
  waitForCompletion : Option Bool
  startedAt : Option ℤ
  endedAt : Option ℤ
deriving DecidableEq, Repr

/-- Oracle for the announce flow's external effects. `history` indexes the
successive `readLatestAssistantReply` reads (modelled from the spec:
`src/agents/tools/agent-step.ts` is not under `src/`; it reads `chat.history`
and extracts the latest assistant reply). `target` is the announce-target
resolution (modelled from the spec: `sessions-announce-target.ts` is not under
`src/`; it derives provider/address from the requester's session record, and
absence means "do not announce"). `stepReply` is the reply of the nested-lane
announce step on the child session. -/
structure AnnounceOracle where
  agentWait : Except String (Option String)
  history : ℕ → Except String String
  target : Except String (Option AnnounceTarget)
  stepReply : Except String (Option String)
  store : ℕ → Option UsageEntry
  storePath : String
  cfgCost : String → String → Option ModelCost
  sendResp : Except String Unit
  deleteResp : Except String Unit

/-- JS falsiness of the `reply` variable: `undefined` or the empty string. -/
def replyFalsy : Option String → Bool
  | none => true
  | some s => s == ""

/-- Modelled from the spec: `isAnnounceSkip` of
`src/agents/tools/sessions-send-helpers.ts` (not under `src/`). The reply
equals the exact suppression sentinel `ANNOUNCE_SKIP` (the directive prompt
says: reply exactly `ANNOUNCE_SKIP` to stay silent). -/
def isAnnounceSkip (s : String) : Bool :=
  jsTrim s == "ANNOUNCE_SKIP"

/-- `buildSubagentAnnouncePrompt` (lines 506-530): the directive instructing
the sub-agent to produce a short announcement or reply with the exact
suppression sentinel. -/
def buildSubagentAnnouncePrompt (requesterSessionKey : String)
    (requesterProvider : Option String) (announceChannel task : String)
    (subagentReply : Option String) : String :=
  let lines :=
    ["Sub-agent announce step:"] ++
    (if requesterSessionKey = "" then []
     else ["Requester session: " ++ requesterSessionKey ++ "."]) ++
    (match requesterProvider with
     | some rp => if rp = "" then [] else ["Requester provider: " ++ rp ++ "."]
     | none => []) ++
    ["Post target provider: " ++ announceChannel ++ ".",
     "Original task: " ++ task,
     (match subagentReply with
      | some r => if r = "" then "Sub-agent result: (not available)." else "Sub-agent result: " ++ r
      | none => "Sub-agent result: (not available)."),
     "Reply exactly \"ANNOUNCE_SKIP\" to stay silent.",
     "Any other reply will be posted to the requester chat provider."]
  String.intercalate "\n" lines

/-- Steps 2-6 of the flow, after the final reply has been determined: resolve
the target, run the nested announce step, suppress or deliver. -/
def announceDeliverStage (p : AnnounceParams) (o : AnnounceOracle)
    (reply : Option String) (tr : List GCall) : List GCall × Except String Unit :=
  let tr := tr ++ [GCall.resolveTarget p.requesterSessionKey p.requesterDisplayKey]
  match o.target with
  | Except.error e => (tr, Except.error e)
  | Except.ok none => (tr, Except.ok ())
  | Except.ok (some tgt) =>
    let prompt := buildSubagentAnnouncePrompt p.requesterSessionKey p.requesterProvider
      tgt.provider p.task reply
    let tr := tr ++ [GCall.nestedStep p.childSessionKey "Sub-agent announce step." prompt
      p.timeoutMs "nested"]
    match o.stepReply with
    | Except.error e => (tr, Except.error e)
    | Except.ok ar =>
      if replyFalsy ar || (jsTrim (ar.getD "") == "") || isAnnounceSkip (ar.getD "") then
        (tr, Except.ok ())
      else
        let ann := ar.getD ""
        let statsLine := buildSubagentStatsLine o.store o.storePath p.childSessionKey
          o.cfgCost p.startedAt p.endedAt
        let message := if statsLine = "" then jsTrim ann
                       else jsTrim ann ++ "\n\n" ++ statsLine
        let tr := tr ++ [GCall.sendMsg tgt.dest tgt.provider message tgt.accountId]
        match o.sendResp with
        | Except.error e => (tr, Except.error e)
        | Except.ok _ => (tr, Except.ok ())

/-- The second `if (!reply)` read (lines 564-568), then the deliver stage. -/
def announceAfterReply (p : AnnounceParams) (o : AnnounceOracle)
    (reply : Option String) (hIdx : ℕ) (tr : List GCall) : List GCall × Except String Unit :=
  if replyFalsy reply then
    let tr := tr ++ [GCall.chatHistory p.childSessionKey]
    match o.history hIdx with
    | Except.error e => (tr, Except.error e)
    | Except.ok r2 => announceDeliverStage p o (some r2) tr
  else announceDeliverStage p o reply tr

/-- The `try` body of `runSubagentAnnounceFlow` (steps 1-6, lines 546-618). -/
def announceFlowBody (p : AnnounceParams) (o : AnnounceOracle) :
    List GCall × Except String Unit :=
  if replyFalsy p.roundOneReply && !(p.waitForCompletion == some false) then
    let waitMs := min p.timeoutMs 60000
    let tr := [GCall.agentWait p.childRunId waitMs]
    match o.agentWait with
    | Except.error e => (tr, Except.error e)
    | Except.ok st =>
      if st ≠ some "ok" then (tr, Except.ok ())
      else
        let tr := tr ++ [GCall.chatHistory p.childSessionKey]
        match o.history 0 with
        | Except.error e => (tr, Except.error e)
        | Except.ok r1 => announceAfterReply p o (some r1) 1 tr
  else announceAfterReply p o p.roundOneReply 0 []

/-- `runSubagentAnnounceFlow` (lines 532-634): the `try` body with every
failure caught and discarded, then the `finally` stage that best-effort
deletes the child session (with transcript) when `cleanup == "delete"`.
The returned value is `Except.ok` of the trace of gateway calls made; an
`Except.error` result would correspond to an exception propagating to the
caller. -/
def runSubagentAnnounceFlow (p : AnnounceParams) (o : AnnounceOracle) :
    Except String (List GCall) :=
  let body := announceFlowBody p o
  let tr := body.1
  let trFinal :=
    if p.cleanup = Cleanup.del then tr ++ [GCall.sessionsDelete p.childSessionKey true]
    else tr
  Except.ok trFinal

/-- The trace of gateway calls the announce flow performs. -/
def announceTrace (p : AnnounceParams) (o : AnnounceOracle) : List GCall :=
  match runSubagentAnnounceFlow p o with
  | Except.ok tr => tr
  | Except.error _ => []


/-! ### Derived predicates and concrete fixtures -/

/-- No `send` delivery call occurs in the trace. -/
def noSendCalls (l : List GCall) : Bool :=
  l.all (fun c => !isSend c)

/-- No model-patch call occurs after a run-start call in the trace. -/
def noModelPatchAfterStart : List GCall → Bool
  | [] => true
  | c :: rest =>
    if isAgentStart c then rest.all (fun y => !isPatchModel y)
    else noModelPatchAfterStart rest

/-- The model-override patch failed with a non-recoverable message (the case
that aborts the spawn before the run starts). -/
def modelPatchFatal (args : SpawnArgs) (o : SpawnOracle) : Bool :=
  match args.model, o.patchModel with
  | some _, Except.error msg => !recoverableModelErr msg
  | _, _ => false

def regEmpty : SubagentRegistry := { runs := [], claimed := [] }

def envW : SpawnEnv :=
  { mainKey := "main", aliasKey := "main", childUuid := "u1", childIdem := "i1" }

def optsW : SpawnOpts :=
  { agentSessionKey := some "req", agentProvider := some "discord", sandboxed := false }

def waitRespOk : WaitResp :=
  { status := some "ok", error := none, startedAt := none, endedAt := none }

def waitRespTimeout : WaitResp :=
  { status := some "timeout", error := some "run timed out", startedAt := none, endedAt := none }

def oracleOk : SpawnOracle :=
  { patchModel := Except.ok (), agentStart := Except.ok (some "run-1"),
    agentWait := Except.ok waitRespOk, history := "result" }

def oracleGwTimeout : SpawnOracle :=
  { oracleOk with agentWait := Except.error "gateway timeout" }

def oracleWaitTimeout : SpawnOracle :=
  { oracleOk with agentWait := Except.ok waitRespTimeout }

def argsPlain (t : JSTimeout) : SpawnArgs :=
  { task := "do thing", label := "", model := none, cleanup := Cleanup.keep,
    timeoutSeconds := t }

def argsModel (t : JSTimeout) : SpawnArgs :=
  { argsPlain t with model := some "m1" }

def announceParamsW : AnnounceParams :=
  { childSessionKey := "agent:main:subagent:u1", childRunId := "run-1",
    requesterSessionKey := "req", requesterProvider := some "discord",
    requesterDisplayKey := "req", task := "do thing", timeoutMs := 30000,
    cleanup := Cleanup.del, roundOneReply := some "result",
    waitForCompletion := none, startedAt := none, endedAt := none }

def announceOracleW (step : Except String (Option String)) : AnnounceOracle :=
  { agentWait := Except.ok (some "ok"), history := fun _ => Except.ok "result",
    target := Except.ok (some { provider := "discord", dest := "channel:req", accountId := none }),
    stepReply := step, store := fun _ => none, storePath := "",
    cfgCost := fun _ _ => none, sendResp := Except.ok (), deleteResp := Except.ok () }

def entryEmpty : UsageEntry :=
  { inputTokens := none, outputTokens := none, totalTokens := none,
    model := none, modelProvider := none, sessionId := none }

def entryTok : UsageEntry :=
  { inputTokens := some 10, outputTokens := some 20, totalTokens := some 30,
    model := none, modelProvider := none, sessionId := none }

def storeAW : ℕ → Option UsageEntry := fun i => if i = 2 then some entryTok else some entryEmpty

def storeBW : ℕ → Option UsageEntry := fun _ => some entryEmpty

/-! ### Helper lemmas -/

theorem strStartsAux_append (p r : List Char) : strStartsAux p (p ++ r) = true := by
  induction p with
  | nil => rfl
  | cons c cs ih => simp [strStartsAux, ih]

theorem strStartsAux_of_append (p l r : List Char) (h : strStartsAux p l = true) :
    strStartsAux p (l ++ r) = true := by
  induction p generalizing l with
  | nil => rfl
  | cons c cs ih =>
    cases l with
    | nil => simp [strStartsAux] at h
    | cons d ds =>
      simp only [strStartsAux, Bool.and_eq_true] at h ⊢
      exact ⟨h.1, ih ds h.2⟩

theorem strIncludesAux_of_starts (p l : List Char) (h : strStartsAux p l = true) :
    strIncludesAux p l = true := by
  cases l with
  | nil => cases p with
    | nil => rfl
    | cons c cs => simp [strStartsAux] at h
  | cons c cs => simp [strIncludesAux, h]

theorem strIncludesAux_append_left (p m l : List Char) (h : strIncludesAux p l = true) :
    strIncludesAux p (m ++ l) = true := by
  induction m with
  | nil => simpa using h
  | cons c cs ih => simp [strIncludesAux, ih]

theorem strIncludesAux_append_right (p l r : List Char) (h : strIncludesAux p l = true) :
    strIncludesAux p (l ++ r) = true := by
  induction l with
  | nil =>
    cases p with
    | nil => cases r with
      | nil => rfl
      | cons d ds => simp [strIncludesAux, strStartsAux]
    | cons c cs => simp [strIncludesAux, strStartsAux] at h
  | cons c cs ih =>
    simp only [strIncludesAux, Bool.or_eq_true, List.cons_append] at h ⊢
    cases h with
    | inl h => exact Or.inl (strStartsAux_of_append _ _ _ h)
    | inr h => exact Or.inr (ih h)

theorem strIncludes_of_middle (a b c : String) :
    strIncludes (a ++ b ++ c) b = true := by
  unfold strIncludes
  have hdata : (a ++ b ++ c).toList = a.toList ++ (b.toList ++ c.toList) := by
    simp [String.toList, List.append_assoc]
  rw [hdata]
  apply strIncludesAux_append_left
  apply strIncludesAux_append_right
  exact strIncludesAux_of_starts _ _ (by simpa using strStartsAux_append b.toList [])

theorem claimSeq_claimed (reg : SubagentRegistry) (runId : String) (n : ℕ)
    (h : runId ∈ reg.claimed) :
    (claimSeq reg runId n).1 = List.replicate n false := by
  induction n generalizing reg with
  | zero => rfl
  | succ n ih =>
    simp only [claimSeq, beginSubagentAnnounce, if_pos h]
    simpa [List.replicate] using ih reg h

theorem registerSubagentRun_claimed (reg : SubagentRegistry) (run : SubagentRun) :
    (registerSubagentRun reg run).claimed = reg.claimed := rfl


theorem claimSeq_claimed_all_false (reg : SubagentRegistry) (runId : String) (n : ℕ)
    (h : runId ∈ reg.claimed) :
    (claimSeq reg runId n).1 = List.replicate n false := by
  induction n generalizing reg with
  | zero => rfl
  | succ n ih =>
    simp only [claimSeq, beginSubagentAnnounce, if_pos h]
    simpa [List.replicate] using ih reg h

/-! ### Claim theorems -/

/-- C1: for any `runId`, the announce-claim operation (`beginSubagentAnnounce`)
returns `true` on exactly one invocation — the first — and `false` on every
subsequent invocation for that same `runId`, for any number of invocations in
any (serialized) order; hence the Announce Flow body runs at most once per
`runId`. -/
theorem exactly_once_announce_claim (reg : SubagentRegistry) (runId : String) (n : ℕ)
    (h : runId ∉ reg.claimed) :
    (claimSeq reg runId (n + 1)).1 = true :: List.replicate n false := by
  simp only [claimSeq, beginSubagentAnnounce, if_neg h]
  have hmem : runId ∈
      ({ reg with claimed := runId :: reg.claimed } : SubagentRegistry).claimed := by
    simp
  simpa using claimSeq_claimed_all_false _ runId n hmem

theorem exactly_once_announce_claim_witness :
    "r" ∉ regEmpty.claimed ∧
    (claimSeq regEmpty "r" 3).1 = true :: List.replicate 2 false :=
  ⟨by decide, exactly_once_announce_claim regEmpty "r" 2 (by decide)⟩

/-- C2: whenever the requester session key is recognized as a sub-agent key,
`executeSpawn` returns a `forbidden` result, makes no gateway call at all
(empty trace — in particular no `agent` run-start call), leaves the registry
untouched and launches no announce flow. -/
theorem no_nested_spawn (args : SpawnArgs) (opts : SpawnOpts) (env : SpawnEnv)
    (o : SpawnOracle) (reg : SubagentRegistry) (k : String)
    (hk : opts.agentSessionKey = some k) (hsub : isSubagentSessionKey k = true) :
    (executeSpawn args opts env o reg).result.status = SpawnStatus.forbidden ∧
    (executeSpawn args opts env o reg).trace = [] ∧
    (executeSpawn args opts env o reg).registry = reg ∧
    (executeSpawn args opts env o reg).announceLaunched = false := by
  have hf : spawnForbidden opts = true := by
    simp [spawnForbidden, hk, hsub]
  simp [executeSpawn, hf]

theorem no_nested_spawn_witness :
    ({ optsW with agentSessionKey := some "agent:main:subagent:t" } : SpawnOpts).agentSessionKey
        = some "agent:main:subagent:t" ∧
    isSubagentSessionKey "agent:main:subagent:t" = true ∧
    (executeSpawn (argsPlain (JSTimeout.finite 1))
        { optsW with agentSessionKey := some "agent:main:subagent:t" }
        envW oracleOk regEmpty).result.status = SpawnStatus.forbidden :=
  ⟨rfl, by decide,
    (no_nested_spawn (argsPlain (JSTimeout.finite 1)) _ envW oracleOk regEmpty
      "agent:main:subagent:t" rfl (by decide)).1⟩

/-- C6: `runSubagentAnnounceFlow` never propagates a failure to its caller —
for every parameter choice and every oracle behaviour it returns `Except.ok`
of its call trace — and when `cleanup == "delete"` the best-effort
`sessions.delete` of the child session (with transcript) is part of that
trace regardless of how the earlier steps fared. -/
theorem announce_flow_never_raises (p : AnnounceParams) (o : AnnounceOracle) :
    runSubagentAnnounceFlow p o = Except.ok (announceTrace p o) ∧
    (p.cleanup = Cleanup.del →
      GCall.sessionsDelete p.childSessionKey true ∈ announceTrace p o) := by
  constructor
  · rfl
  · intro h
    simp [announceTrace, runSubagentAnnounceFlow, h]

theorem announce_flow_never_raises_witness :
    announceParamsW.cleanup = Cleanup.del ∧
    GCall.sessionsDelete announceParamsW.childSessionKey true ∈
      announceTrace announceParamsW (announceOracleW (Except.error "step failed")) :=
  ⟨rfl, (announce_flow_never_raises announceParamsW
    (announceOracleW (Except.error "step failed"))).2 rfl⟩

theorem noSendCalls_append (l r : List GCall) :
    noSendCalls (l ++ r) = (noSendCalls l && noSendCalls r) := by
  simp [noSendCalls, List.all_append]

theorem noSendCalls_cons (c : GCall) (l : List GCall) :
    noSendCalls (c :: l) = (!isSend c && noSendCalls l) := by
  simp [noSendCalls]

theorem noSendCalls_nil : noSendCalls [] = true := rfl

theorem announceDeliverStage_noSend (p : AnnounceParams) (o : AnnounceOracle)
    (reply : Option String) (tr : List GCall) (r : String)
    (hstep : o.stepReply = Except.ok (some r))
    (hr : jsTrim r = "" ∨ isAnnounceSkip r = true)
    (htr : noSendCalls tr = true) :
    noSendCalls (announceDeliverStage p o reply tr).1 = true := by
  unfold announceDeliverStage
  cases ht : o.target with
  | error e => simp [noSendCalls_append, noSendCalls_cons, noSendCalls_nil, htr, isSend]
  | ok tOpt =>
    cases tOpt with
    | none => simp [noSendCalls_append, noSendCalls_cons, noSendCalls_nil, htr, isSend]
    | some tgt =>
      rw [hstep]
      have hcond : (replyFalsy (some r) || (jsTrim ((some r).getD "") == "") ||
          isAnnounceSkip ((some r).getD "")) = true := by
        cases hr with
        | inl h => simp [h]
        | inr h => simp [h]
      simp only [hcond, if_true]
      simp [noSendCalls_append, noSendCalls_cons, noSendCalls_nil, htr, isSend]

theorem announceAfterReply_noSend (p : AnnounceParams) (o : AnnounceOracle)
    (reply : Option String) (hIdx : ℕ) (tr : List GCall) (r : String)
    (hstep : o.stepReply = Except.ok (some r))
    (hr : jsTrim r = "" ∨ isAnnounceSkip r = true)
    (htr : noSendCalls tr = true) :
    noSendCalls (announceAfterReply p o reply hIdx tr).1 = true := by
  unfold announceAfterReply
  by_cases hf : replyFalsy reply = true
  · simp only [hf, if_true]
    cases hh : o.history hIdx with
    | error e => simp [noSendCalls_append, noSendCalls_cons, noSendCalls_nil, htr, isSend]
    | ok r2 =>
      apply announceDeliverStage_noSend p o _ _ r hstep hr
      simp [noSendCalls_append, noSendCalls_cons, noSendCalls_nil, htr, isSend]
  · simp only [Bool.not_eq_true] at hf
    simp only [hf, Bool.false_eq_true, if_false]
    exact announceDeliverStage_noSend p o _ _ r hstep hr htr

theorem announceFlowBody_noSend (p : AnnounceParams) (o : AnnounceOracle) (r : String)
    (hstep : o.stepReply = Except.ok (some r))
    (hr : jsTrim r = "" ∨ isAnnounceSkip r = true) :
    noSendCalls (announceFlowBody p o).1 = true := by
  unfold announceFlowBody
  by_cases hc : (replyFalsy p.roundOneReply && !(p.waitForCompletion == some false)) = true
  · simp only [hc, if_true]
    cases hw : o.agentWait with
    | error e => simp [noSendCalls_append, noSendCalls_cons, noSendCalls_nil, isSend]
    | ok st =>
      by_cases hst : st ≠ some "ok"
      · simp [hst, noSendCalls, isSend]
      · simp only [hst, if_false]
        cases hh : o.history 0 with
        | error e => simp [noSendCalls_append, noSendCalls_cons, noSendCalls_nil, isSend]
        | ok r1 =>
          apply announceAfterReply_noSend p o _ _ _ r hstep hr
          simp [noSendCalls_append, noSendCalls_cons, noSendCalls_nil, isSend]
  · simp only [Bool.not_eq_true] at hc
    simp only [hc, Bool.false_eq_true, if_false]
    exact announceAfterReply_noSend p o _ _ _ r hstep hr noSendCalls_nil

/-- C7: if the announce step's reply is empty (or only whitespace) or equals
the exact suppression sentinel, the Announce Flow performs no `send` call,
while the cleanup policy is still applied: with `cleanup == "delete"` the
child session is still deleted. -/
theorem announce_suppression (p : AnnounceParams) (o : AnnounceOracle) (r : String)
    (hstep : o.stepReply = Except.ok (some r))
    (hr : jsTrim r = "" ∨ isAnnounceSkip r = true) :
    noSendCalls (announceTrace p o) = true ∧
    (p.cleanup = Cleanup.del →
      GCall.sessionsDelete p.childSessionKey true ∈ announceTrace p o) := by
  have hbody := announceFlowBody_noSend p o r hstep hr
  constructor
  · simp only [announceTrace, runSubagentAnnounceFlow]
    by_cases h : p.cleanup = Cleanup.del
    · simp [h, noSendCalls_append, noSendCalls_cons, noSendCalls_nil, hbody, isSend]
    · simp [h, hbody]
  · intro h
    simp [announceTrace, runSubagentAnnounceFlow, h]

theorem announce_suppression_witness :
    (announceOracleW (Except.ok (some "ANNOUNCE_SKIP"))).stepReply
        = Except.ok (some "ANNOUNCE_SKIP") ∧
    (jsTrim "ANNOUNCE_SKIP" = "" ∨ isAnnounceSkip "ANNOUNCE_SKIP" = true) ∧
    noSendCalls (announceTrace announceParamsW
      (announceOracleW (Except.ok (some "ANNOUNCE_SKIP")))) = true ∧
    GCall.sessionsDelete announceParamsW.childSessionKey true ∈
      announceTrace announceParamsW (announceOracleW (Except.ok (some "ANNOUNCE_SKIP"))) :=
  ⟨rfl, Or.inr (by decide),
    (announce_suppression announceParamsW _ "ANNOUNCE_SKIP" rfl (Or.inr (by decide))).1,
    (announce_suppression announceParamsW _ "ANNOUNCE_SKIP" rfl (Or.inr (by decide))).2 rfl⟩

theorem nmpas_of_no_patch (l : List GCall)
    (h : l.all (fun c => !isPatchModel c) = true) :
    noModelPatchAfterStart l = true := by
  induction l with
  | nil => rfl
  | cons c rest ih =>
    simp only [List.all_cons, Bool.and_eq_true] at h
    unfold noModelPatchAfterStart
    by_cases hc : isAgentStart c = true
    · simp [hc, h.2]
    · simp only [Bool.not_eq_true] at hc
      simp [hc, ih h.2]

theorem nmpas_cons (c : GCall) (l : List GCall) :
    noModelPatchAfterStart (c :: l) =
      if isAgentStart c then l.all (fun y => !isPatchModel y)
      else noModelPatchAfterStart l := rfl

theorem nmpas_append_no_start (pre l : List GCall)
    (hpre : pre.all (fun c => !isAgentStart c) = true) :
    noModelPatchAfterStart (pre ++ l) = noModelPatchAfterStart l := by
  induction pre with
  | nil => rfl
  | cons c rest ih =>
    simp only [List.all_cons, Bool.and_eq_true, Bool.not_eq_true'] at hpre
    simp only [List.cons_append, nmpas_cons, hpre.1, Bool.false_eq_true, if_false]
    exact ih hpre.2

theorem spawnWaitStage_trace (args : SpawnArgs) (o : SpawnOracle) (reg : SubagentRegistry)
    (ck rid : String) (tr : List GCall) (applied : Bool) (warning : Option String)
    (tms : ℕ) :
    ∃ ext, (spawnWaitStage args o reg ck rid tr applied warning tms).trace = tr ++ ext ∧
      ext.all (fun c => !isPatchModel c && !isSend c) = true := by
  unfold spawnWaitStage
  cases o.agentWait with
  | error msg =>
    exact ⟨[GCall.agentWait rid tms], rfl, by simp [isPatchModel, isSend]⟩
  | ok w =>
    by_cases ht : w.status = some "timeout"
    · refine ⟨[GCall.agentWait rid tms, GCall.chatAbort ck rid], ?_, by simp [isPatchModel, isSend]⟩
      simp [ht]
    · by_cases he : w.status = some "error"
      · refine ⟨[GCall.agentWait rid tms], ?_, by simp [isPatchModel, isSend]⟩
        simp [ht, he]
      · refine ⟨[GCall.agentWait rid tms, GCall.chatHistory ck], ?_, by simp [isPatchModel, isSend]⟩
        simp [ht, he]

theorem spawnStartStage_trace (args : SpawnArgs) (o : SpawnOracle) (reg : SubagentRegistry)
    (ck idem : String) (tr : List GCall) (applied : Bool) (warning : Option String)
    (rik : String) (prov : Option String) (rdk : String) (esp : String) :
    ∃ ext, (spawnStartStage args o reg ck idem tr applied warning rik prov rdk esp).trace =
        tr ++ GCall.agentStart args.task ck idem false "subagent" esp :: ext ∧
      ext.all (fun c => !isPatchModel c && !isSend c) = true := by
  unfold spawnStartStage
  cases o.agentStart with
  | error msg => exact ⟨[], by simp, rfl⟩
  | ok ridOpt =>
    by_cases hts : coerceTimeoutSeconds args.timeoutSeconds = 0
    · exact ⟨[], by simp [hts], rfl⟩
    · simp only [hts, if_false]
      obtain ⟨ext, htr, hall⟩ := spawnWaitStage_trace args o
        (registerSubagentRun reg
          { runId := resolvedRunId idem ridOpt, childSessionKey := ck,
            requesterSessionKey := rik, requesterProvider := prov,
            requesterDisplayKey := rdk, task := args.task, cleanup := args.cleanup })
        ck (resolvedRunId idem ridOpt)
        (tr ++ [GCall.agentStart args.task ck idem false "subagent" esp]) applied warning
        (coerceTimeoutSeconds args.timeoutSeconds * 1000)
      exact ⟨ext, by simpa [List.append_assoc] using htr, hall⟩

theorem executeSpawn_trace_split (args : SpawnArgs) (opts : SpawnOpts) (env : SpawnEnv)
    (o : SpawnOracle) (reg : SubagentRegistry) :
    ∃ pre post, (executeSpawn args opts env o reg).trace = pre ++ post ∧
      pre.all (fun c => !isAgentStart c && !isSend c) = true ∧
      post.all (fun c => !isPatchModel c && !isSend c) = true := by
  unfold executeSpawn
  by_cases hf : spawnForbidden opts = true
  · exact ⟨[], [], by simp [hf], rfl, rfl⟩
  · simp only [hf, Bool.false_eq_true, if_false]
    unfold executeSpawnBody
    cases hm : args.model with
    | none =>
      obtain ⟨ext, htr, hall⟩ := spawnStartStage_trace args o reg (spawnChildKey opts env)
        env.childIdem _ false none (spawnRequesterInternal opts env) opts.agentProvider
        (spawnRequesterDisplay opts env) (spawnSystemPrompt args opts env)
      refine ⟨_, GCall.agentStart args.task (spawnChildKey opts env) env.childIdem false
        "subagent" (spawnSystemPrompt args opts env) :: ext, htr, ?_, ?_⟩
      · by_cases hs : opts.sandboxed <;> simp [hs, isAgentStart, isSend]
      · simp only [List.all_cons, Bool.and_eq_true]
        exact ⟨⟨rfl, rfl⟩, hall⟩
    | some m =>
      cases hp : o.patchModel with
      | ok u =>
        obtain ⟨ext, htr, hall⟩ := spawnStartStage_trace args o reg (spawnChildKey opts env)
          env.childIdem _ true none (spawnRequesterInternal opts env) opts.agentProvider
          (spawnRequesterDisplay opts env) (spawnSystemPrompt args opts env)
        refine ⟨_, GCall.agentStart args.task (spawnChildKey opts env) env.childIdem false
          "subagent" (spawnSystemPrompt args opts env) :: ext, htr, ?_, ?_⟩
        · by_cases hs : opts.sandboxed <;>
            simp [hs, isAgentStart, isSend, isPatchModel]
        · simp only [List.all_cons, Bool.and_eq_true]
          exact ⟨⟨rfl, rfl⟩, hall⟩
      | error msg =>
        by_cases hr : recoverableModelErr msg = true
        · simp only [hr, if_true]
          obtain ⟨ext, htr, hall⟩ := spawnStartStage_trace args o reg (spawnChildKey opts env)
            env.childIdem _ false (some msg) (spawnRequesterInternal opts env)
            opts.agentProvider (spawnRequesterDisplay opts env) (spawnSystemPrompt args opts env)
          refine ⟨_, GCall.agentStart args.task (spawnChildKey opts env) env.childIdem false
            "subagent" (spawnSystemPrompt args opts env) :: ext, htr, ?_, ?_⟩
          · by_cases hs : opts.sandboxed <;>
              simp [hs, isAgentStart, isSend, isPatchModel]
          · simp only [List.all_cons, Bool.and_eq_true]
            exact ⟨⟨rfl, rfl⟩, hall⟩
        · simp only [Bool.not_eq_true] at hr
          refine ⟨(if opts.sandboxed then
              [GCall.patchSpawnedBy (spawnChildKey opts env) (spawnRequesterInternal opts env)]
              else []) ++ [GCall.patchModel (spawnChildKey opts env) m], [], ?_, ?_, rfl⟩
          · simp [hr]
          · by_cases hs : opts.sandboxed <;>
              simp [hs, isAgentStart, isSend, isPatchModel]

/-- Helper: the spawn tool itself never issues a `send` delivery call. -/
theorem executeSpawn_noSend (args : SpawnArgs) (opts : SpawnOpts) (env : SpawnEnv)
    (o : SpawnOracle) (reg : SubagentRegistry) :
    noSendCalls (executeSpawn args opts env o reg).trace = true := by
  obtain ⟨pre, post, htr, hpre, hpost⟩ := executeSpawn_trace_split args opts env o reg
  rw [htr, noSendCalls_append]
  simp only [List.all_eq_true, Bool.and_eq_true] at hpre hpost
  simp only [noSendCalls, List.all_eq_true, Bool.and_eq_true]
  exact ⟨fun c hc => (hpre c hc).2, fun c hc => (hpost c hc).2⟩

/-- C8: model selection is never applied after the run has started — in every
execution of the spawn tool, no `sessions.patch {model}` call occurs at or
after a run-start `agent` call in the trace, and whenever a model override is
requested and the run-start call is issued, a model-patch call is present
(earlier) in the trace: the patch completes before the run starts. -/
theorem patch_before_start (args : SpawnArgs) (opts : SpawnOpts) (env : SpawnEnv)
    (o : SpawnOracle) (reg : SubagentRegistry) :
    noModelPatchAfterStart (executeSpawn args opts env o reg).trace = true ∧
    (∀ m, args.model = some m →
      (executeSpawn args opts env o reg).trace.any isAgentStart = true →
      (executeSpawn args opts env o reg).trace.any isPatchModel = true) := by
  constructor
  · obtain ⟨pre, post, htr, hpre, hpost⟩ := executeSpawn_trace_split args opts env o reg
    rw [htr]
    have hpre' : pre.all (fun c => !isAgentStart c) = true := by
      simp only [List.all_eq_true, Bool.and_eq_true] at hpre ⊢
      exact fun c hc => (hpre c hc).1
    have hpost' : post.all (fun c => !isPatchModel c) = true := by
      simp only [List.all_eq_true, Bool.and_eq_true] at hpost ⊢
      exact fun c hc => (hpost c hc).1
    rw [nmpas_append_no_start pre post hpre']
    exact nmpas_of_no_patch post hpost'
  · intro m hm hstart
    by_cases hf : spawnForbidden opts = true
    · have hempty : (executeSpawn args opts env o reg).trace = [] := by
        simp [executeSpawn, hf]
      rw [hempty] at hstart
      simp at hstart
    · simp only [Bool.not_eq_true] at hf
      cases hp : o.patchModel with
      | ok u =>
        have heq : executeSpawn args opts env o reg =
            spawnStartStage args o reg (spawnChildKey opts env) env.childIdem
              ((if opts.sandboxed then
                [GCall.patchSpawnedBy (spawnChildKey opts env) (spawnRequesterInternal opts env)]
                else []) ++ [GCall.patchModel (spawnChildKey opts env) m]) true none
              (spawnRequesterInternal opts env) opts.agentProvider
              (spawnRequesterDisplay opts env) (spawnSystemPrompt args opts env) := by
          simp [executeSpawn, executeSpawnBody, hf, hm, hp]
        rw [heq]
        obtain ⟨ext, htr, -⟩ := spawnStartStage_trace args o reg (spawnChildKey opts env)
          env.childIdem _ true none (spawnRequesterInternal opts env) opts.agentProvider
          (spawnRequesterDisplay opts env) (spawnSystemPrompt args opts env)
        rw [htr]
        simp [List.any_append, isPatchModel]
      | error msg =>
        by_cases hrec : recoverableModelErr msg = true
        · have heq : executeSpawn args opts env o reg =
              spawnStartStage args o reg (spawnChildKey opts env) env.childIdem
                ((if opts.sandboxed then
                  [GCall.patchSpawnedBy (spawnChildKey opts env) (spawnRequesterInternal opts env)]
                  else []) ++ [GCall.patchModel (spawnChildKey opts env) m]) false (some msg)
                (spawnRequesterInternal opts env) opts.agentProvider
                (spawnRequesterDisplay opts env) (spawnSystemPrompt args opts env) := by
            simp [executeSpawn, executeSpawnBody, hf, hm, hp, hrec]
          rw [heq]
          obtain ⟨ext, htr, -⟩ := spawnStartStage_trace args o reg (spawnChildKey opts env)
            env.childIdem _ false (some msg) (spawnRequesterInternal opts env)
            opts.agentProvider (spawnRequesterDisplay opts env) (spawnSystemPrompt args opts env)
          rw [htr]
          simp [List.any_append, isPatchModel]
        · simp only [Bool.not_eq_true] at hrec
          have heq : (executeSpawn args opts env o reg).trace =
              (if opts.sandboxed then
                [GCall.patchSpawnedBy (spawnChildKey opts env) (spawnRequesterInternal opts env)]
                else []) ++ [GCall.patchModel (spawnChildKey opts env) m] := by
            simp [executeSpawn, executeSpawnBody, hf, hm, hp, hrec]
          rw [heq]
          simp [List.any_append, isPatchModel]

theorem patch_before_start_witness :
    (argsModel (JSTimeout.finite 1)).model = some "m1" ∧
    (executeSpawn (argsModel (JSTimeout.finite 1)) optsW envW oracleOk regEmpty).trace.any
        isAgentStart = true ∧
    noModelPatchAfterStart
      (executeSpawn (argsModel (JSTimeout.finite 1)) optsW envW oracleOk regEmpty).trace
        = true ∧
    (executeSpawn (argsModel (JSTimeout.finite 1)) optsW envW oracleOk regEmpty).trace.any
        isPatchModel = true :=
  ⟨rfl, by decide,
    (patch_before_start (argsModel (JSTimeout.finite 1)) optsW envW oracleOk regEmpty).1,
    (patch_before_start (argsModel (JSTimeout.finite 1)) optsW envW oracleOk regEmpty).2
      "m1" rfl (by decide)⟩

theorem spawnStartStage_fields (args : SpawnArgs) (o : SpawnOracle) (reg : SubagentRegistry)
    (ck idem : String) (tr : List GCall) (applied : Bool) (warning : Option String)
    (rik : String) (prov : Option String) (rdk : String) (esp : String)
    (rid : Option String) (w : WaitResp)
    (hs : o.agentStart = Except.ok rid) (hw : o.agentWait = Except.ok w) :
    (spawnStartStage args o reg ck idem tr applied warning rik prov rdk esp).result.modelApplied
        = args.model.map (fun _ => applied) ∧
    (spawnStartStage args o reg ck idem tr applied warning rik prov rdk esp).result.warning
        = warning ∧
    (spawnStartStage args o reg ck idem tr applied warning rik prov rdk esp).trace.any
        isAgentStart = true := by
  unfold spawnStartStage
  simp only [hs]
  by_cases hts : coerceTimeoutSeconds args.timeoutSeconds = 0
  · simp [hts, List.any_append, isAgentStart]
  · simp only [hts, if_false]
    unfold spawnWaitStage
    simp only [hw]
    split_ifs <;> simp [List.any_append, isAgentStart]

theorem spawnStartStage_accepted (args : SpawnArgs) (o : SpawnOracle) (reg : SubagentRegistry)
    (ck idem : String) (tr : List GCall) (applied : Bool) (warning : Option String)
    (rik : String) (prov : Option String) (rdk : String) (esp : String) (rid : Option String)
    (hs : o.agentStart = Except.ok rid) (ht : coerceTimeoutSeconds args.timeoutSeconds = 0)
    (htr : tr.any isAgentWait = false) :
    (spawnStartStage args o reg ck idem tr applied warning rik prov rdk esp).result.status
        = SpawnStatus.accepted ∧
    (spawnStartStage args o reg ck idem tr applied warning rik prov rdk esp).trace.any
        isAgentWait = false ∧
    (spawnStartStage args o reg ck idem tr applied warning rik prov rdk esp).announceLaunched
        = false ∧
    (spawnStartStage args o reg ck idem tr applied warning rik prov rdk esp).registry
        = registerSubagentRun reg
            { runId := resolvedRunId idem rid, childSessionKey := ck,
              requesterSessionKey := rik, requesterProvider := prov,
              requesterDisplayKey := rdk, task := args.task, cleanup := args.cleanup } := by
  unfold spawnStartStage
  rw [hs]
  simp [ht, List.any_append, htr, isAgentWait]

theorem spawnWaitStage_timeout (args : SpawnArgs) (o : SpawnOracle) (reg : SubagentRegistry)
    (ck rid : String) (tr : List GCall) (applied : Bool) (warning : Option String)
    (tms : ℕ) (htrAb : tr.any isChatAbort = false)
    (h : (spawnWaitStage args o reg ck rid tr applied warning tms).result.status
        = SpawnStatus.timeout) :
    (spawnWaitStage args o reg ck rid tr applied warning tms).announceLaunched = false ∧
    (spawnWaitStage args o reg ck rid tr applied warning tms).registry = reg ∧
    ((spawnWaitStage args o reg ck rid tr applied warning tms).trace.any isChatAbort = true ↔
      ∃ w, o.agentWait = Except.ok w ∧ w.status = some "timeout") := by
  unfold spawnWaitStage at h ⊢
  cases hw : o.agentWait with
  | error msg =>
    simp only [hw] at h ⊢
    refine ⟨by trivial, by trivial, ?_⟩
    simp only [List.any_append, htrAb, Bool.false_or]
    constructor
    · intro hc
      simp [isChatAbort] at hc
    · rintro ⟨w, hww, -⟩
      simp [hw] at hww
  | ok w =>
    simp only [hw] at h ⊢
    by_cases ht : w.status = some "timeout"
    · simp only [ht, if_true] at h ⊢
      refine ⟨by trivial, by trivial, ?_⟩
      constructor
      · intro _
        exact ⟨w, rfl, ht⟩
      · intro _
        simp [List.any_append, isChatAbort]
    · by_cases he : w.status = some "error"
      · simp only [ht, he] at h
        simp at h
      · simp only [ht, he] at h
        simp at h

theorem spawnStartStage_timeout (args : SpawnArgs) (o : SpawnOracle) (reg : SubagentRegistry)
    (ck idem : String) (tr : List GCall) (applied : Bool) (warning : Option String)
    (rik : String) (prov : Option String) (rdk : String) (esp : String)
    (htrAb : tr.any isChatAbort = false)
    (h : (spawnStartStage args o reg ck idem tr applied warning rik prov rdk esp).result.status
        = SpawnStatus.timeout) :
    (spawnStartStage args o reg ck idem tr applied warning rik prov rdk esp).announceLaunched
        = false ∧
    (spawnStartStage args o reg ck idem tr applied warning rik prov rdk esp).registry.claimed
        = reg.claimed ∧
    ((spawnStartStage args o reg ck idem tr applied warning rik prov rdk esp).trace.any
        isChatAbort = true ↔
      ∃ w, o.agentWait = Except.ok w ∧ w.status = some "timeout") := by
  unfold spawnStartStage at h ⊢
  cases hso : o.agentStart with
  | error msg =>
    simp only [hso] at h
    simp at h
  | ok ridOpt =>
    simp only [hso] at h ⊢
    by_cases hts : coerceTimeoutSeconds args.timeoutSeconds = 0
    · simp [hts] at h
    · simp only [hts, if_false] at h ⊢
      have htrAb2 : (tr ++ [GCall.agentStart args.task ck idem false "subagent" esp]).any
          isChatAbort = false := by
        simp [List.any_append, htrAb, isChatAbort]
      obtain ⟨h1, h2, h3⟩ := spawnWaitStage_timeout args o _ ck (resolvedRunId idem ridOpt)
        _ applied warning (coerceTimeoutSeconds args.timeoutSeconds * 1000) htrAb2 h
      exact ⟨h1, by rw [h2, registerSubagentRun_claimed], h3⟩

/-- C3: when a model override is requested and the `sessions.patch` call fails,
a message containing "invalid model" (or "model not allowed") is recoverable —
the run still starts, `modelApplied` is `false` and `warning` carries the
message — while any other message aborts the spawn with an `error` result
before the `agent` run-start call is ever made. -/
theorem model_override_recoverability (args : SpawnArgs) (opts : SpawnOpts) (env : SpawnEnv)
    (o : SpawnOracle) (reg : SubagentRegistry) (m msg : String) (rid : Option String)
    (w : WaitResp)
    (hm : args.model = some m) (hp : o.patchModel = Except.error msg)
    (hf : spawnForbidden opts = false)
    (hs : o.agentStart = Except.ok rid) (hw : o.agentWait = Except.ok w) :
    (recoverableModelErr msg = true →
      (executeSpawn args opts env o reg).trace.any isAgentStart = true ∧
      (executeSpawn args opts env o reg).result.modelApplied = some false ∧
      (executeSpawn args opts env o reg).result.warning = some msg) ∧
    (recoverableModelErr msg = false →
      (executeSpawn args opts env o reg).result.status = SpawnStatus.error ∧
      (executeSpawn args opts env o reg).result.error = some msg ∧
      (executeSpawn args opts env o reg).trace.any isAgentStart = false) := by
  constructor
  · intro hrec
    have heq : executeSpawn args opts env o reg =
        spawnStartStage args o reg (spawnChildKey opts env) env.childIdem
          ((if opts.sandboxed then
              [GCall.patchSpawnedBy (spawnChildKey opts env) (spawnRequesterInternal opts env)]
            else []) ++ [GCall.patchModel (spawnChildKey opts env) m])
          false (some msg) (spawnRequesterInternal opts env) opts.agentProvider
          (spawnRequesterDisplay opts env) (spawnSystemPrompt args opts env) := by
      simp [executeSpawn, executeSpawnBody, hf, hm, hp, hrec]
    rw [heq]
    obtain ⟨h1, h2, h3⟩ := spawnStartStage_fields args o reg (spawnChildKey opts env)
      env.childIdem _ false (some msg) (spawnRequesterInternal opts env) opts.agentProvider
      (spawnRequesterDisplay opts env) (spawnSystemPrompt args opts env) rid w hs hw
    rw [hm] at h1
    exact ⟨h3, by simpa using h1, h2⟩
  · intro hrec
    have heq : executeSpawn args opts env o reg =
        { result := { status := SpawnStatus.error, error := some msg,
                      childSessionKey := some (spawnChildKey opts env) },
          trace := (if opts.sandboxed then
              [GCall.patchSpawnedBy (spawnChildKey opts env) (spawnRequesterInternal opts env)]
            else []) ++ [GCall.patchModel (spawnChildKey opts env) m],
          registry := reg, announceLaunched := false } := by
      simp [executeSpawn, executeSpawnBody, hf, hm, hp, hrec]
    rw [heq]
    refine ⟨rfl, rfl, ?_⟩
    by_cases hsb : opts.sandboxed <;> simp [hsb, isAgentStart]

theorem model_override_recoverability_witness :
    (argsModel JSTimeout.absent).model = some "m1" ∧
    ({ oracleOk with patchModel := Except.error "invalid model: m1" } : SpawnOracle).patchModel
        = Except.error "invalid model: m1" ∧
    spawnForbidden optsW = false ∧
    recoverableModelErr "invalid model: m1" = true ∧
    (executeSpawn (argsModel JSTimeout.absent) optsW envW
        { oracleOk with patchModel := Except.error "invalid model: m1" } regEmpty).trace.any
        isAgentStart = true ∧
    (executeSpawn (argsModel JSTimeout.absent) optsW envW
        { oracleOk with patchModel := Except.error "invalid model: m1" } regEmpty).result.modelApplied
        = some false :=
  ⟨rfl, rfl, by decide, by decide,
    ((model_override_recoverability (argsModel JSTimeout.absent) optsW envW
      { oracleOk with patchModel := Except.error "invalid model: m1" } regEmpty
      "m1" "invalid model: m1" (some "run-1") waitRespOk rfl rfl (by decide) rfl rfl).1
      (by decide)).1,
    ((model_override_recoverability (argsModel JSTimeout.absent) optsW envW
      { oracleOk with patchModel := Except.error "invalid model: m1" } regEmpty
      "m1" "invalid model: m1" (some "run-1") waitRespOk rfl rfl (by decide) rfl rfl).1
      (by decide)).2.1⟩

/-- C9: with a coerced timeout of `0` and a successful run-start, the spawn
returns `accepted` immediately: no `agent.wait` call appears in the trace, the
announce gate is not claimed and no announce flow is launched, yet the run is
registered in the Subagent Registry before returning. -/
theorem fire_and_forget_accepted (args : SpawnArgs) (opts : SpawnOpts) (env : SpawnEnv)
    (o : SpawnOracle) (reg : SubagentRegistry) (rid : Option String)
    (hf : spawnForbidden opts = false)
    (ht : coerceTimeoutSeconds args.timeoutSeconds = 0)
    (hs : o.agentStart = Except.ok rid)
    (hnp : modelPatchFatal args o = false) :
    (executeSpawn args opts env o reg).result.status = SpawnStatus.accepted ∧
    (executeSpawn args opts env o reg).trace.any isAgentWait = false ∧
    (executeSpawn args opts env o reg).announceLaunched = false ∧
    (executeSpawn args opts env o reg).registry.claimed = reg.claimed ∧
    ({ runId := resolvedRunId env.childIdem rid, childSessionKey := spawnChildKey opts env,
       requesterSessionKey := spawnRequesterInternal opts env,
       requesterProvider := opts.agentProvider,
       requesterDisplayKey := spawnRequesterDisplay opts env,
       task := args.task, cleanup := args.cleanup } : SubagentRun) ∈
      (executeSpawn args opts env o reg).registry.runs := by
  have assemble : ∀ (tr : List GCall) (applied : Bool) (warning : Option String),
      tr.any isAgentWait = false →
      executeSpawn args opts env o reg =
        spawnStartStage args o reg (spawnChildKey opts env) env.childIdem tr applied warning
          (spawnRequesterInternal opts env) opts.agentProvider
          (spawnRequesterDisplay opts env) (spawnSystemPrompt args opts env) →
      (executeSpawn args opts env o reg).result.status = SpawnStatus.accepted ∧
      (executeSpawn args opts env o reg).trace.any isAgentWait = false ∧
      (executeSpawn args opts env o reg).announceLaunched = false ∧
      (executeSpawn args opts env o reg).registry.claimed = reg.claimed ∧
      ({ runId := resolvedRunId env.childIdem rid, childSessionKey := spawnChildKey opts env,
         requesterSessionKey := spawnRequesterInternal opts env,
         requesterProvider := opts.agentProvider,
         requesterDisplayKey := spawnRequesterDisplay opts env,
         task := args.task, cleanup := args.cleanup } : SubagentRun) ∈
        (executeSpawn args opts env o reg).registry.runs := by
    intro tr applied warning htr heq
    rw [heq]
    obtain ⟨h1, h2, h3, h4⟩ := spawnStartStage_accepted args o reg (spawnChildKey opts env)
      env.childIdem tr applied warning (spawnRequesterInternal opts env) opts.agentProvider
      (spawnRequesterDisplay opts env) (spawnSystemPrompt args opts env) rid hs ht htr
    refine ⟨h1, h2, h3, by rw [h4, registerSubagentRun_claimed], ?_⟩
    rw [h4]
    exact List.mem_cons_self _ _
  cases hm : args.model with
  | none =>
    refine assemble (if opts.sandboxed then
        [GCall.patchSpawnedBy (spawnChildKey opts env) (spawnRequesterInternal opts env)]
        else []) false none ?_ ?_
    · by_cases hsb : opts.sandboxed <;> simp [hsb, isAgentWait]
    · simp [executeSpawn, executeSpawnBody, hf, hm]
  | some m =>
    cases hp : o.patchModel with
    | ok u =>
      refine assemble ((if opts.sandboxed then
        [GCall.patchSpawnedBy (spawnChildKey opts env) (spawnRequesterInternal opts env)]
        else []) ++ [GCall.patchModel (spawnChildKey opts env) m]) true none ?_ ?_
      · by_cases hsb : opts.sandboxed <;> simp [hsb, isAgentWait]
      · simp [executeSpawn, executeSpawnBody, hf, hm, hp]
    | error msg =>
      have hrec : recoverableModelErr msg = true := by
        have := hnp
        rw [modelPatchFatal, hm, hp] at this
        simpa using this
      refine assemble ((if opts.sandboxed then
        [GCall.patchSpawnedBy (spawnChildKey opts env) (spawnRequesterInternal opts env)]
        else []) ++ [GCall.patchModel (spawnChildKey opts env) m]) false (some msg) ?_ ?_
      · by_cases hsb : opts.sandboxed <;> simp [hsb, isAgentWait]
      · simp [executeSpawn, executeSpawnBody, hf, hm, hp, hrec]

theorem fire_and_forget_accepted_witness :
    spawnForbidden optsW = false ∧
    coerceTimeoutSeconds (argsPlain (JSTimeout.finite 0)).timeoutSeconds = 0 ∧
    oracleOk.agentStart = Except.ok (some "run-1") ∧
    modelPatchFatal (argsPlain (JSTimeout.finite 0)) oracleOk = false ∧
    (executeSpawn (argsPlain (JSTimeout.finite 0)) optsW envW oracleOk regEmpty).result.status
        = SpawnStatus.accepted ∧
    (executeSpawn (argsPlain (JSTimeout.finite 0)) optsW envW oracleOk
        regEmpty).trace.any isAgentWait = false :=
  ⟨by decide, by decide, rfl, rfl,
    (fire_and_forget_accepted (argsPlain (JSTimeout.finite 0)) optsW envW oracleOk regEmpty
      (some "run-1") (by decide) (by decide) rfl rfl).1,
    (fire_and_forget_accepted (argsPlain (JSTimeout.finite 0)) optsW envW oracleOk regEmpty
      (some "run-1") (by decide) (by decide) rfl rfl).2.1⟩

/-- C5 counterexample: when `agent.wait` rejects with a message containing
"gateway timeout", the spawn returns a `timeout` result but no `chat.abort`
request is ever issued — refuting "whenever spawn returns `timeout`, an abort
has been issued". -/
theorem timeout_without_abort_cex :
    (executeSpawn (argsPlain (JSTimeout.finite 1)) optsW envW oracleGwTimeout
        regEmpty).result.status = SpawnStatus.timeout ∧
    (executeSpawn (argsPlain (JSTimeout.finite 1)) optsW envW oracleGwTimeout
        regEmpty).trace.any isChatAbort = false := by
  decide

/-- C5 (amended): whenever spawn returns a `timeout` result, the announce flow
is not launched, the announce gate is not claimed (the claimed set is
unchanged), the spawn performs no `send` delivery call, and a `chat.abort`
request appears in the trace exactly when the gateway's wait resolved with
status `"timeout"` (when the wait call itself rejected with a
"gateway timeout" message, no abort is issued). -/
theorem timeout_no_announce (args : SpawnArgs) (opts : SpawnOpts) (env : SpawnEnv)
    (o : SpawnOracle) (reg : SubagentRegistry)
    (h : (executeSpawn args opts env o reg).result.status = SpawnStatus.timeout) :
    (executeSpawn args opts env o reg).announceLaunched = false ∧
    (executeSpawn args opts env o reg).registry.claimed = reg.claimed ∧
    noSendCalls (executeSpawn args opts env o reg).trace = true ∧
    ((executeSpawn args opts env o reg).trace.any isChatAbort = true ↔
      ∃ w, o.agentWait = Except.ok w ∧ w.status = some "timeout") := by
  have hns := executeSpawn_noSend args opts env o reg
  suffices haux : (executeSpawn args opts env o reg).announceLaunched = false ∧
      (executeSpawn args opts env o reg).registry.claimed = reg.claimed ∧
      ((executeSpawn args opts env o reg).trace.any isChatAbort = true ↔
        ∃ w, o.agentWait = Except.ok w ∧ w.status = some "timeout") by
    exact ⟨haux.1, haux.2.1, hns, haux.2.2⟩
  by_cases hf : spawnForbidden opts = true
  · exfalso
    have hst : (executeSpawn args opts env o reg).result.status = SpawnStatus.forbidden := by
      simp [executeSpawn, hf]
    rw [hst] at h
    exact absurd h (by simp)
  · simp only [Bool.not_eq_true] at hf
    cases hm : args.model with
    | none =>
      have heq : executeSpawn args opts env o reg =
          spawnStartStage args o reg (spawnChildKey opts env) env.childIdem
            (if opts.sandboxed then
              [GCall.patchSpawnedBy (spawnChildKey opts env) (spawnRequesterInternal opts env)]
              else []) false none (spawnRequesterInternal opts env) opts.agentProvider
            (spawnRequesterDisplay opts env) (spawnSystemPrompt args opts env) := by
        simp [executeSpawn, executeSpawnBody, hf, hm]
      rw [heq] at h ⊢
      exact spawnStartStage_timeout args o reg (spawnChildKey opts env) env.childIdem
          (if opts.sandboxed then
              [GCall.patchSpawnedBy (spawnChildKey opts env) (spawnRequesterInternal opts env)]
              else [])
          false none (spawnRequesterInternal opts env) opts.agentProvider
          (spawnRequesterDisplay opts env) (spawnSystemPrompt args opts env)
          (by by_cases hsb : opts.sandboxed <;> simp [hsb, isChatAbort]) h
    | some m =>
      cases hp : o.patchModel with
      | ok u =>
        have heq : executeSpawn args opts env o reg =
            spawnStartStage args o reg (spawnChildKey opts env) env.childIdem
              ((if opts.sandboxed then
                [GCall.patchSpawnedBy (spawnChildKey opts env) (spawnRequesterInternal opts env)]
                else []) ++ [GCall.patchModel (spawnChildKey opts env) m]) true none
              (spawnRequesterInternal opts env) opts.agentProvider
              (spawnRequesterDisplay opts env) (spawnSystemPrompt args opts env) := by
          simp [executeSpawn, executeSpawnBody, hf, hm, hp]
        rw [heq] at h ⊢
        exact spawnStartStage_timeout args o reg (spawnChildKey opts env) env.childIdem
          ((if opts.sandboxed then
              [GCall.patchSpawnedBy (spawnChildKey opts env) (spawnRequesterInternal opts env)]
              else []) ++ [GCall.patchModel (spawnChildKey opts env) m])
          true none (spawnRequesterInternal opts env) opts.agentProvider
          (spawnRequesterDisplay opts env) (spawnSystemPrompt args opts env)
          (by by_cases hsb : opts.sandboxed <;> simp [hsb, isChatAbort]) h
      | error msg =>
        by_cases hrec : recoverableModelErr msg = true
        · have heq : executeSpawn args opts env o reg =
              spawnStartStage args o reg (spawnChildKey opts env) env.childIdem
                ((if opts.sandboxed then
                  [GCall.patchSpawnedBy (spawnChildKey opts env) (spawnRequesterInternal opts env)]
                  else []) ++ [GCall.patchModel (spawnChildKey opts env) m]) false (some msg)
                (spawnRequesterInternal opts env) opts.agentProvider
                (spawnRequesterDisplay opts env) (spawnSystemPrompt args opts env) := by
            simp [executeSpawn, executeSpawnBody, hf, hm, hp, hrec]
          rw [heq] at h ⊢
          exact spawnStartStage_timeout args o reg (spawnChildKey opts env) env.childIdem
            ((if opts.sandboxed then
                [GCall.patchSpawnedBy (spawnChildKey opts env) (spawnRequesterInternal opts env)]
                else []) ++ [GCall.patchModel (spawnChildKey opts env) m])
            false (some msg) (spawnRequesterInternal opts env) opts.agentProvider
            (spawnRequesterDisplay opts env) (spawnSystemPrompt args opts env)
            (by by_cases hsb : opts.sandboxed <;> simp [hsb, isChatAbort]) h
        · exfalso
          simp only [Bool.not_eq_true] at hrec
          have hst : (executeSpawn args opts env o reg).result.status = SpawnStatus.error := by
            simp [executeSpawn, executeSpawnBody, hf, hm, hp, hrec]
          rw [hst] at h
          exact absurd h (by simp)

theorem timeout_no_announce_witness :
    (executeSpawn (argsPlain (JSTimeout.finite 1)) optsW envW oracleWaitTimeout
        regEmpty).result.status = SpawnStatus.timeout ∧
    ((executeSpawn (argsPlain (JSTimeout.finite 1)) optsW envW oracleWaitTimeout
        regEmpty).announceLaunched = false ∧
     (executeSpawn (argsPlain (JSTimeout.finite 1)) optsW envW oracleWaitTimeout
        regEmpty).registry.claimed = regEmpty.claimed ∧
     noSendCalls (executeSpawn (argsPlain (JSTimeout.finite 1)) optsW envW oracleWaitTimeout
        regEmpty).trace = true ∧
     ((executeSpawn (argsPlain (JSTimeout.finite 1)) optsW envW oracleWaitTimeout
        regEmpty).trace.any isChatAbort = true ↔
       ∃ w, oracleWaitTimeout.agentWait = Except.ok w ∧ w.status = some "timeout")) :=
  ⟨by decide,
    timeout_no_announce (argsPlain (JSTimeout.finite 1)) optsW envW oracleWaitTimeout regEmpty
      (by decide)⟩

theorem executeSpawn_timeout_congr (args : SpawnArgs) (opts : SpawnOpts) (env : SpawnEnv)
    (o : SpawnOracle) (reg : SubagentRegistry) (t1 t2 : JSTimeout)
    (hc : coerceTimeoutSeconds t1 = coerceTimeoutSeconds t2) :
    executeSpawn { args with timeoutSeconds := t1 } opts env o reg =
    executeSpawn { args with timeoutSeconds := t2 } opts env o reg := by
  unfold executeSpawn executeSpawnBody spawnStartStage spawnWaitStage spawnSystemPrompt
  simp only [hc]

/-- C10: the `timeoutSeconds` argument is coerced with
`max(0, floor(value))` when it is a finite number and to `0` otherwise, so a
missing or non-finite value makes the spawn behave exactly like
`timeoutSeconds = 0`, and a fractional value behaves exactly like the floored
number of whole seconds. -/
theorem timeout_seconds_coercion (args : SpawnArgs) (opts : SpawnOpts) (env : SpawnEnv)
    (o : SpawnOracle) (reg : SubagentRegistry) (q : ℚ) :
    coerceTimeoutSeconds JSTimeout.absent = 0 ∧
    coerceTimeoutSeconds JSTimeout.nonfinite = 0 ∧
    coerceTimeoutSeconds (JSTimeout.finite q) = (max 0 ⌊q⌋).toNat ∧
    executeSpawn { args with timeoutSeconds := JSTimeout.absent } opts env o reg =
      executeSpawn { args with timeoutSeconds := JSTimeout.finite 0 } opts env o reg ∧
    executeSpawn { args with timeoutSeconds := JSTimeout.nonfinite } opts env o reg =
      executeSpawn { args with timeoutSeconds := JSTimeout.finite 0 } opts env o reg ∧
    executeSpawn { args with timeoutSeconds := JSTimeout.finite q } opts env o reg =
      executeSpawn { args with timeoutSeconds := JSTimeout.finite (⌊q⌋ : ℚ) } opts env o reg := by
  refine ⟨rfl, rfl, rfl, ?_, ?_, ?_⟩
  · exact executeSpawn_timeout_congr args opts env o reg _ _ (by
      simp [coerceTimeoutSeconds])
  · exact executeSpawn_timeout_congr args opts env o reg _ _ (by
      simp [coerceTimeoutSeconds])
  · exact executeSpawn_timeout_congr args opts env o reg _ _ (by
      simp [coerceTimeoutSeconds, Int.floor_intCast])

theorem usageGo_zero (store : ℕ → Option UsageEntry) (i : ℕ) (cur : Option UsageEntry) :
    usageGo store 0 i cur = (cur, []) := rfl

theorem usageGo_succ (store : ℕ → Option UsageEntry) (fuel i : ℕ) (cur : Option UsageEntry) :
    usageGo store (fuel + 1) i cur =
      if entryHasTokens (store i) then (store i, [200])
      else ((usageGo store fuel (i + 1) (store i)).1,
            200 :: (usageGo store fuel (i + 1) (store i)).2) := rfl

theorem strIncludesAux_middle (p a c : List Char) :
    strIncludesAux p (a ++ (p ++ c)) = true := by
  apply strIncludesAux_append_left
  apply strIncludesAux_append_right
  exact strIncludesAux_of_starts _ _ (by simpa using strStartsAux_append p [])

theorem joinParts_toList_infix (parts : List String) (p : String) (hp : p ∈ parts) :
    ∃ a c, (joinParts parts).toList = a ++ (p.toList ++ c) := by
  induction parts with
  | nil => cases hp
  | cons x rest ih =>
    cases rest with
    | nil =>
      rcases List.mem_singleton.mp hp with rfl
      exact ⟨[], [], by simp [joinParts]⟩
    | cons y rest2 =>
      rcases List.mem_cons.mp hp with rfl | hmem
      · refine ⟨[], (" • " ++ joinParts (y :: rest2)).toList, ?_⟩
        simp only [String.toList]
        simp [joinParts, String.data_append]
      · obtain ⟨a, c, hj⟩ := ih hmem
        refine ⟨(x ++ " • ").toList ++ a, c, ?_⟩
        simp only [String.toList] at hj ⊢
        simp [joinParts, String.data_append, hj, List.append_assoc]

theorem strIncludes_part (pre : String) (parts : List String) (p : String) (hp : p ∈ parts) :
    strIncludes (pre ++ joinParts parts) p = true := by
  obtain ⟨a, c, hj⟩ := joinParts_toList_infix parts p hp
  unfold strIncludes
  have hl : (pre ++ joinParts parts).toList = (pre.toList ++ a) ++ (p.toList ++ c) := by
    simp only [String.toList] at hj ⊢
    simp [String.data_append, hj, List.append_assoc]
  rw [hl]
  exact strIncludesAux_middle _ _ _

theorem tokens_none_of_not_has (oe : Option UsageEntry) (h : entryHasTokens oe = false) :
    oe.bind UsageEntry.totalTokens = none ∧ oe.bind UsageEntry.inputTokens = none ∧
      oe.bind UsageEntry.outputTokens = none := by
  cases oe with
  | none => simp
  | some u =>
    simp only [entryHasTokens, hasTokens, Bool.or_eq_false_iff] at h
    obtain ⟨⟨h1, h2⟩, h3⟩ := h
    have e1 : u.totalTokens = none := by cases hu : u.totalTokens <;> simp_all
    have e2 : u.inputTokens = none := by cases hu : u.inputTokens <;> simp_all
    have e3 : u.outputTokens = none := by cases hu : u.outputTokens <;> simp_all
    simp [e1, e2, e3]

/-- C4: when the usage entry lacks token data at the first read, the store is
re-polled up to 4 times with a fixed 200ms delay: an entry whose token counts
appear at the read after 2 polling attempts yields the entry (and the stats
line carries its token counts), and an entry whose token data never appears
within the retry budget exhausts all 4 delays and the stats line falls back to
"tokens n/a" (the embedding is total, so no failure is raised). -/
theorem stats_eventual_consistency
    (storeA storeB : ℕ → Option UsageEntry) (e0 e2 f0 : UsageEntry)
    (sp key : String) (cfg : String → String → Option ModelCost) (s e : Option ℤ)
    (i o2 t : ℕ)
    (hA0 : storeA 0 = some e0) (hA0t : hasTokens e0 = false)
    (hA1 : entryHasTokens (storeA 1) = false)
    (hA2 : storeA 2 = some e2) (hA2t : hasTokens e2 = true)
    (hIn : e2.inputTokens = some i) (hOut : e2.outputTokens = some o2)
    (hTot : e2.totalTokens = some t)
    (hB0 : storeB 0 = some f0)
    (hBt : ∀ j, j ≤ 4 → entryHasTokens (storeB j) = false) :
    (waitForSessionUsage storeA).2 = [200, 200] ∧
    (waitForSessionUsage storeA).1 = some e2 ∧
    strIncludes (buildSubagentStatsLine storeA sp key cfg s e)
      ("tokens " ++ formatTokenCount (some t) ++ " (in " ++ formatTokenCount (some i) ++
        " / out " ++ formatTokenCount (some o2) ++ ")") = true ∧
    (waitForSessionUsage storeB).2 = [200, 200, 200, 200] ∧
    strIncludes (buildSubagentStatsLine storeB sp key cfg s e) "tokens n/a" = true := by
  have hA2e : entryHasTokens (storeA 2) = true := by simp [entryHasTokens, hA2, hA2t]
  have hstep2 : usageGo storeA 3 2 (storeA 1) = (some e2, [200]) := by
    have hu := usageGo_succ storeA 2 2 (storeA 1)
    rw [show (2 : ℕ) + 1 = 3 from rfl] at hu
    rw [hu, if_pos hA2e, hA2]
  have hgoA : usageGo storeA 4 1 (some e0) = (some e2, [200, 200]) := by
    have hu := usageGo_succ storeA 3 1 (some e0)
    rw [show (3 : ℕ) + 1 = 4 from rfl] at hu
    rw [hu, if_neg (by simp [hA1]), show (1 : ℕ) + 1 = 2 from rfl, hstep2]
  have hwaitA : waitForSessionUsage storeA = (some e2, [200, 200]) := by
    unfold waitForSessionUsage
    simp only [hA0]
    rw [if_neg (by simp [hA0t]), hgoA]
  have hb1 : usageGo storeB 1 4 (storeB 3) = (storeB 4, [200]) := by
    have hu := usageGo_succ storeB 0 4 (storeB 3)
    rw [show (0 : ℕ) + 1 = 1 from rfl] at hu
    rw [hu, if_neg (by simp [hBt 4 (by norm_num)]), usageGo_zero]
  have hb2 : usageGo storeB 2 3 (storeB 2) = (storeB 4, [200, 200]) := by
    have hu := usageGo_succ storeB 1 3 (storeB 2)
    rw [show (1 : ℕ) + 1 = 2 from rfl] at hu
    rw [hu, if_neg (by simp [hBt 3 (by norm_num)]), show (3 : ℕ) + 1 = 4 from rfl, hb1]
  have hb3 : usageGo storeB 3 2 (storeB 1) = (storeB 4, [200, 200, 200]) := by
    have hu := usageGo_succ storeB 2 2 (storeB 1)
    rw [show (2 : ℕ) + 1 = 3 from rfl] at hu
    rw [hu, if_neg (by simp [hBt 2 (by norm_num)]), hb2]
  have hb4 : usageGo storeB 4 1 (some f0) = (storeB 4, [200, 200, 200, 200]) := by
    have hu := usageGo_succ storeB 3 1 (some f0)
    rw [show (3 : ℕ) + 1 = 4 from rfl] at hu
    rw [hu, if_neg (by simp [hBt 1 (by norm_num)]), show (1 : ℕ) + 1 = 2 from rfl, hb3]
  have hf0 : hasTokens f0 = false := by
    have hx := hBt 0 (by norm_num)
    rw [hB0] at hx
    simpa [entryHasTokens] using hx
  have hwaitB : waitForSessionUsage storeB = (storeB 4, [200, 200, 200, 200]) := by
    unfold waitForSessionUsage
    simp only [hB0]
    rw [if_neg (by simp [hf0]), hb4]
  have hnt := tokens_none_of_not_has (storeB 4) (hBt 4 (by norm_num))
  refine ⟨by rw [hwaitA], by rw [hwaitA], ?_, by rw [hwaitB], ?_⟩
  · unfold buildSubagentStatsLine
    rw [hwaitA]
    simp only [Option.some_bind, hTot, hIn, hOut]
    apply strIncludes_part
    simp
  · unfold buildSubagentStatsLine
    rw [hwaitB]
    simp only [hnt.1, hnt.2.1, hnt.2.2]
    apply strIncludes_part
    simp

theorem stats_eventual_consistency_witness :
    (waitForSessionUsage storeAW).2 = [200, 200] ∧
    (waitForSessionUsage storeAW).1 = some entryTok ∧
    strIncludes
      (buildSubagentStatsLine storeAW "/tmp/store.json" "agent:main:subagent:u1"
        (fun _ _ => none) none none)
      ("tokens " ++ formatTokenCount (some 30) ++ " (in " ++ formatTokenCount (some 10) ++
        " / out " ++ formatTokenCount (some 20) ++ ")") = true ∧
    (waitForSessionUsage storeBW).2 = [200, 200, 200, 200] ∧
    strIncludes
      (buildSubagentStatsLine storeBW "/tmp/store.json" "agent:main:subagent:u1"
        (fun _ _ => none) none none) "tokens n/a" = true :=
  stats_eventual_consistency storeAW storeBW entryEmpty entryTok entryEmpty
    "/tmp/store.json" "agent:main:subagent:u1" (fun _ _ => none) none none
    10 20 30 rfl rfl rfl rfl rfl rfl rfl rfl rfl (fun _ _ => rfl)
